import Mathlib

/-!
Shallow embedding of the Alt-Manager browser extension.

Source files embedded here:
- `src/popup.js` — the popup UI ("Controller"): CRUD over a persisted ordered
  sequence of accounts (add / delete-by-index / edit-by-id), and the
  `switchAccount` request that asks the content script to write the page's
  local storage.
- `src/unnamed/part_000` — the content script ("Executor"): a
  `chrome.runtime.onMessage` listener that, on a `"SET_LOCAL_STORAGE_AUTH"`
  message, writes `localStorage.session_v1 = authId` inside a try/catch,
  shows a reload notification on success, and responds with a
  success/failure object.

Effects (storage writes, DOM messages, `window.close`) are made explicit as
data in result records. The asynchronous environment (the active-tab query,
the message transport, whether the page's storage write throws) is passed in
as explicit parameters.
-/

namespace AltManager

/-- An account record, as stored by `popup.js`: `{id, name, authId}`.
`id` is assigned at creation (`Date.now().toString()` in the source, modelled
as an explicit parameter), `name` and `authId` are the trimmed user inputs. -/
structure Account where
  id : String
  name : String
  authId : String
deriving Repr, DecidableEq

/-- The wire payload of a switch request: `{authId, name}`. -/
structure Payload where
  authId : String
  name : String
deriving Repr, DecidableEq

/-- A message from the Controller to the Executor:
`{action, payload}` (popup.js line 162-164). -/
structure Request where
  action : String
  payload : Payload
deriving Repr, DecidableEq

/-- The Executor's response object `{success, message}`; `message : Option`
models a possibly-absent JS field. -/
structure SwitchResponse where
  success : Bool
  message : Option String
deriving Repr, DecidableEq

/-! ## Executor (content script `src/unnamed/part_000`) -/

/-- The fixed local-storage key the Executor writes (`LOCAL_STORAGE_KEY`). -/
def LOCAL_STORAGE_KEY : String := "session_v1"

/-- What the `chrome.runtime.onMessage` listener produces: the new value of
the page's `session_v1` local-storage key, the reload notification (the
account name displayed by `promptForReload`, if called), and the response
sent via `sendResponse` (if any). -/
structure ExecutorResult where
  sessionV1 : Option String
  notification : Option String
  response : Option SwitchResponse
deriving Repr, DecidableEq

/-- The `chrome.runtime.onMessage` listener of the content script
(part_000 lines 88-120). `writeOutcome` models whether the assignment
`window.localStorage.session_v1 = authId` succeeds or throws an error `e`
(whose `.message` is the carried string); `sessionV1` is the key's prior
value. -/
def executorOnMessage (request : Request) (writeOutcome : Except String Unit)
    (sessionV1 : Option String) : ExecutorResult :=
  if request.action = "SET_LOCAL_STORAGE_AUTH" then
    match writeOutcome with
    | .ok _ =>
        { sessionV1 := some request.payload.authId
          notification := some request.payload.name
          response := some { success := true, message := some "Local storage set." } }
    | .error e =>
        { sessionV1 := sessionV1
          notification := none
          response := some { success := false
                             message := some ("Failed to set localStorage: " ++ e
                               ++ ". The site might restrict script access.") } }
  else
    { sessionV1 := sessionV1, notification := none, response := none }

/-! ## Controller (`popup.js`) — switch protocol side -/

/-- A `chrome.tabs.Tab` as far as `switchAccount` inspects it: just its `id`
field, which may be absent (`undefined`). -/
structure Tab where
  id : Option Nat
deriving Repr, DecidableEq

/-- JS truthiness of `tab && tab.id` (popup.js line 156): false when the
query returned no tab, when `tab.id` is `undefined`, and when it is `0`
(falsy in JS). -/
def tabUsable : Option Tab → Bool
  | none => false
  | some t =>
    match t.id with
    | none => false
    | some n => n != 0

/-- Outcome of `chrome.tabs.sendMessage` as seen by the callback:
either `chrome.runtime.lastError` is set, or a response (possibly
`undefined`) was delivered. -/
inductive SendOutcome where
  | lastError (msg : String)
  | delivered (response : Option SwitchResponse)
deriving Repr, DecidableEq

/-- The observable effects of one `switchAccount` call: the messages sent to
the content script, the message shown via `showMessage` (if any), and
whether `window.close()` was called. -/
structure ControllerEffect where
  sentMessages : List Request
  shownMessage : Option String
  closed : Bool
deriving Repr, DecidableEq

/-- JS `x || d` on an optional string `x`: the default replaces both an
absent field and an empty (falsy) string. -/
def jsOrDefault (m : Option String) (d : String) : String :=
  match m with
  | none => d
  | some s => if s = "" then d else s

/-- The `switchAccount` function (popup.js lines 151-175). `tabQuery` is the
result of `chrome.tabs.query({active: true, currentWindow: true})` (the
first element, if any); `transport` is what the `sendMessage` callback
observes. -/
def switchAccount (account : Account) (tabQuery : Option Tab)
    (transport : SendOutcome) : ControllerEffect :=
  if !(tabUsable tabQuery) then
    { sentMessages := []
      shownMessage := some "Error: No active tab found."
      closed := false }
  else
    let req : Request :=
      { action := "SET_LOCAL_STORAGE_AUTH"
        payload := { authId := account.authId, name := account.name } }
    match transport with
    | .lastError _ =>
        { sentMessages := [req]
          shownMessage := some
            "Error: Could not communicate with page script. Try reloading the page first."
          closed := false }
    | .delivered response =>
        match response with
        | some r =>
          if r.success then
            { sentMessages := [req], shownMessage := none, closed := true }
          else
            { sentMessages := [req]
              shownMessage := some ("Switch failed: "
                ++ jsOrDefault r.message "Script execution failed.")
              closed := false }
        | none =>
            { sentMessages := [req]
              shownMessage := some ("Switch failed: "
                ++ jsOrDefault none "Script execution failed.")
              closed := false }

/-- One full switch round trip against a reachable Executor: the Controller
sends its request, the Executor's listener handles it, and the response is
delivered back to the Controller's callback. -/
structure SwitchRun where
  executor : ExecutorResult
  controller : ControllerEffect
deriving Repr, DecidableEq

/-- Composition of `switchAccount` with `executorOnMessage` for a usable tab
and a reachable content script: the request the Controller sends is handed to
the Executor's listener, whose response is delivered to the callback. -/
def runSwitch (account : Account) (tab : Tab) (writeOutcome : Except String Unit)
    (sessionV1 : Option String) : SwitchRun :=
  if tabUsable (some tab) then
    let req : Request :=
      { action := "SET_LOCAL_STORAGE_AUTH"
        payload := { authId := account.authId, name := account.name } }
    let ex := executorOnMessage req writeOutcome sessionV1
    { executor := ex
      controller := switchAccount account (some tab) (.delivered ex.response) }
  else
    { executor := { sessionV1 := sessionV1, notification := none, response := none }
      controller := switchAccount account (some tab) (.delivered none) }

/-! ## Controller (`popup.js`) — account CRUD side -/

/-- JS `String.prototype.trim`: strips leading and trailing whitespace.
(Defined over the character list so it evaluates by kernel reduction.) -/
def jsTrim (s : String) : String :=
  String.mk (List.reverse (List.dropWhile Char.isWhitespace
    (List.reverse (List.dropWhile Char.isWhitespace s.data))))

/-- The observable outcome of one CRUD handler run: the list passed to
`saveAccounts` (if it was called), the list passed to `renderAccounts`
(if it was called), and the `showMessage` text (if any). -/
structure CrudOutcome where
  saved : Option (List Account)
  rendered : Option (List Account)
  message : Option String
deriving Repr, DecidableEq

/-- The `saveButton` click handler (popup.js lines 110-138). `stored` is
what `loadAccounts()` returns; `newId` models `Date.now().toString()`. -/
def addAccountClick (nameInput authIdInput newId : String)
    (stored : List Account) : CrudOutcome :=
  let name := jsTrim nameInput
  let authId := jsTrim authIdInput
  if name = "" ∨ authId = "" then
    { saved := none
      rendered := none
      message := some "Please provide both an Account Name and the Auth ID." }
  else
    let newAccount : Account := { id := newId, name := name, authId := authId }
    let accounts := stored ++ [newAccount]
    { saved := some accounts
      rendered := some accounts
      message := some ("Account \"" ++ name ++ "\" saved!") }

/-- The `deleteAccount` function (popup.js lines 141-148). The source reads
`accounts[index].name` before splicing; with an out-of-range index that
access throws, so the handler completes (saves and renders) only when the
index is valid — `none` models the thrown run. `splice(index, 1)` is
`eraseIdx`. -/
def deleteAccountClick (stored : List Account) (index : Nat) :
    Option CrudOutcome :=
  match stored[index]? with
  | none => none
  | some account =>
    let accounts := stored.eraseIdx index
    some { saved := some accounts
           rendered := some accounts
           message := some ("Account \"" ++ account.name ++ "\" deleted.") }

/-- The observable outcome of one `saveEditBtn` click: like `CrudOutcome`,
plus whether the edit modal was closed (`editModal.style.display = 'none'`). -/
structure EditOutcome where
  saved : Option (List Account)
  rendered : Option (List Account)
  message : Option String
  modalClosed : Bool
deriving Repr, DecidableEq

/-- The `saveEditBtn` click handler (popup.js lines 197-223). `id` is the
hidden `editAccountId` field; the handler trims the inputs, rejects empty
ones, looks the account up with `findIndex(acc => acc.id === id)`, and on a
hit replaces `name` and `authId` in place. -/
def saveEditClick (id nameInput authIdInput : String)
    (stored : List Account) : EditOutcome :=
  let newName := jsTrim nameInput
  let newAuthId := jsTrim authIdInput
  if newName = "" ∨ newAuthId = "" then
    { saved := none
      rendered := none
      message := some "Name and Auth ID cannot be empty."
      modalClosed := false }
  else
    match stored.findIdx? (fun acc => acc.id = id) with
    | some accountIndex =>
      match stored[accountIndex]? with
      | some old =>
        let accounts :=
          stored.set accountIndex { old with name := newName, authId := newAuthId }
        { saved := some accounts
          rendered := some accounts
          message := some ("Account \"" ++ old.name ++ "\" updated to \""
            ++ newName ++ "\"!")
          modalClosed := true }
      | none =>
        { saved := none, rendered := none, message := none, modalClosed := false }
    | none =>
        { saved := none
          rendered := none
          message := some "Error: Could not find account to update."
          modalClosed := true }

/-! ## CRUD state machine (for read-after-write consistency) -/

/-- One user-level CRUD operation on the popup. -/
inductive Op where
  | add (nameInput authIdInput newId : String)
  | delete (index : Nat)
  | edit (id nameInput authIdInput : String)
deriving Repr, DecidableEq

/-- The popup's two copies of the sequence: the one in `chrome.storage.local`
and the one last passed to `renderAccounts`. -/
structure UIState where
  persisted : List Account
  rendered : List Account
deriving Repr, DecidableEq

/-- Applies a `CrudOutcome` to the state: `saveAccounts` overwrites the
persisted sequence, `renderAccounts` overwrites the rendered one; handlers
that call neither leave the state alone. -/
def applyOutcome (s : UIState) (saved rendered : Option (List Account)) : UIState :=
  { persisted := saved.getD s.persisted
    rendered := rendered.getD s.rendered }

/-- One step of the popup: each handler starts by `loadAccounts()` (reading
the persisted sequence) and then saves/renders per the handler's code. A
delete whose `accounts[index].name` access throws aborts before any save or
render. -/
def applyOp (s : UIState) (op : Op) : UIState :=
  match op with
  | .add n a i =>
    let r := addAccountClick n a i s.persisted
    applyOutcome s r.saved r.rendered
  | .delete i =>
    match deleteAccountClick s.persisted i with
    | none => s
    | some r => applyOutcome s r.saved r.rendered
  | .edit id n a =>
    let r := saveEditClick id n a s.persisted
    applyOutcome s r.saved r.rendered

/-- Runs a sequence of operations from an initial state. -/
def runOps (s : UIState) (ops : List Op) : UIState :=
  ops.foldl applyOp s

/-! ## Helper lemmas -/

/-- Appending to a nonempty string yields a nonempty string. -/
lemma append_ne_empty_left (a b : String) (h : a ≠ "") : a ++ b ≠ "" := by
  intro hc
  apply h
  have h2 := congrArg String.data hc
  rw [String.data_append] at h2
  have ha : a.data = [] := (List.append_eq_nil.mp h2).1
  cases a
  simp at ha
  simp [ha]

/-! ## Claims -/

/-- C1, claim as stated, refuted: on a successful switch (credential
`"abc123XYZ"`, name `"Work"`, reachable Executor, storage write succeeds)
the Executor does NOT respond with exactly `\x7bsuccess: true\x7d` — its
response also carries `message = "Local storage set."`. -/
theorem C1_counterexample :
    (runSwitch { id := "1", name := "Work", authId := "abc123XYZ" }
        { id := some 1 } (.ok ()) none).executor.response ≠
      some { success := true, message := none } := by
  decide

/-- C1 (amended): for every switch request sent to a reachable Executor whose
storage write succeeds, the page's `session_v1` key becomes exactly the sent
credential value, the Executor responds with success `true` (and message
`"Local storage set."`), and the Controller closes its UI without showing an
error message. -/
theorem C1_switch_success (account : Account) (tab : Tab)
    (sessionV1 : Option String) (htab : tabUsable (some tab) = true) :
    (runSwitch account tab (.ok ()) sessionV1).executor.sessionV1 =
        some account.authId ∧
    (runSwitch account tab (.ok ()) sessionV1).executor.response =
        some { success := true, message := some "Local storage set." } ∧
    (runSwitch account tab (.ok ()) sessionV1).controller.closed = true ∧
    (runSwitch account tab (.ok ()) sessionV1).controller.shownMessage = none := by
  simp [runSwitch, htab, executorOnMessage, switchAccount]

/-- Witness for C1: the amended claim applied at credential `"abc123XYZ"`,
name `"Work"`, a usable tab, and empty prior storage. -/
theorem C1_switch_success_witness :
    tabUsable (some { id := some 1 }) = true ∧
    (runSwitch { id := "1", name := "Work", authId := "abc123XYZ" }
        { id := some 1 } (.ok ()) none).executor.sessionV1 = some "abc123XYZ" := by
  refine ⟨by decide, ?_⟩
  exact (C1_switch_success { id := "1", name := "Work", authId := "abc123XYZ" }
    { id := some 1 } none (by decide)).1

/-- C3: when the active-tab query yields no tab, the Controller sends no
message at all (whatever the transport would have answered) and shows the
"no active tab" error message, without closing. -/
theorem C3_no_active_tab (account : Account) (transport : SendOutcome) :
    switchAccount account none transport =
      { sentMessages := []
        shownMessage := some "Error: No active tab found."
        closed := false } := by
  rfl

/-- C4: an add attempt whose name or credential is empty after trimming calls
neither `saveAccounts` nor `renderAccounts` and shows the validation
message. -/
theorem C4_add_validation (nameInput authIdInput newId : String)
    (stored : List Account)
    (h : jsTrim nameInput = "" ∨ jsTrim authIdInput = "") :
    (addAccountClick nameInput authIdInput newId stored).saved = none ∧
    (addAccountClick nameInput authIdInput newId stored).rendered = none ∧
    (addAccountClick nameInput authIdInput newId stored).message =
      some "Please provide both an Account Name and the Auth ID." := by
  rcases h with h | h <;> simp [addAccountClick, h]

/-- Witness for C4: blank name input, nonempty credential. -/
theorem C4_add_validation_witness :
    (jsTrim " " = "" ∨ jsTrim "x" = "") ∧
    (addAccountClick " " "x" "id1" []).saved = none := by
  refine ⟨Or.inl (by decide), ?_⟩
  exact (C4_add_validation " " "x" "id1" [] (Or.inl (by decide))).1

/-- C9: a valid add appends exactly one record at the end: the saved (and
rendered) sequence is the prior sequence unchanged, followed by the new
record whose name and credential are the trimmed inputs and whose id is the
freshly assigned one. -/
theorem C9_add_appends (nameInput authIdInput newId : String)
    (stored : List Account)
    (hn : jsTrim nameInput ≠ "") (ha : jsTrim authIdInput ≠ "") :
    (addAccountClick nameInput authIdInput newId stored).saved =
      some (stored ++
        [{ id := newId, name := jsTrim nameInput, authId := jsTrim authIdInput }]) ∧
    (addAccountClick nameInput authIdInput newId stored).rendered =
      (addAccountClick nameInput authIdInput newId stored).saved := by
  simp [addAccountClick, hn, ha]

/-- Witness for C9: adding name `"Work"`, credential `"abc123XYZ"` to a
one-element store appends at the end. -/
theorem C9_add_appends_witness :
    (jsTrim "Work" ≠ "" ∧ jsTrim " abc123XYZ " ≠ "") ∧
    (addAccountClick "Work" " abc123XYZ " "id2"
        [{ id := "id1", name := "Old", authId := "tok" }]).saved =
      some [{ id := "id1", name := "Old", authId := "tok" },
            { id := "id2", name := "Work", authId := "abc123XYZ" }] := by
  refine ⟨⟨by decide, by decide⟩, ?_⟩
  exact (C9_add_appends "Work" " abc123XYZ " "id2"
    [{ id := "id1", name := "Old", authId := "tok" }]
    (by decide) (by decide)).1

/-- C10: a message whose action tag is not `"SET_LOCAL_STORAGE_AUTH"` leaves
the page's `session_v1` key unchanged, shows no notification, and gets no
response. -/
theorem C10_other_actions_ignored (request : Request)
    (writeOutcome : Except String Unit) (sessionV1 : Option String)
    (h : request.action ≠ "SET_LOCAL_STORAGE_AUTH") :
    executorOnMessage request writeOutcome sessionV1 =
      { sessionV1 := sessionV1, notification := none, response := none } := by
  simp [executorOnMessage, h]

/-- Witness for C10: a `"PING"` message with a prior stored value. -/
theorem C10_other_actions_ignored_witness :
    ("PING" ≠ "SET_LOCAL_STORAGE_AUTH") ∧
    executorOnMessage { action := "PING", payload := { authId := "a", name := "n" } }
        (.ok ()) (some "old") =
      { sessionV1 := some "old", notification := none, response := none } := by
  refine ⟨by decide, ?_⟩
  exact C10_other_actions_ignored
    { action := "PING", payload := { authId := "a", name := "n" } }
    (.ok ()) (some "old") (by decide)

/-- C2: when the Executor's storage write throws an error with message `e`,
the page storage is unchanged and no success notification is shown, the
Executor responds with `success := false` and a message derived from `e`,
and the Controller shows a message containing `e` and does not close. -/
theorem C2_switch_write_throws (account : Account) (tab : Tab)
    (sessionV1 : Option String) (e : String)
    (htab : tabUsable (some tab) = true) :
    (runSwitch account tab (.error e) sessionV1).executor.sessionV1 = sessionV1 ∧
    (runSwitch account tab (.error e) sessionV1).executor.notification = none ∧
    (runSwitch account tab (.error e) sessionV1).executor.response =
      some { success := false
             message := some ("Failed to set localStorage: " ++ e
               ++ ". The site might restrict script access.") } ∧
    (runSwitch account tab (.error e) sessionV1).controller.shownMessage =
      some ("Switch failed: Failed to set localStorage: " ++ e
        ++ ". The site might restrict script access.") ∧
    (runSwitch account tab (.error e) sessionV1).controller.closed = false := by
  have hm : ("Failed to set localStorage: " ++ e
      ++ ". The site might restrict script access.") ≠ "" := by
    apply append_ne_empty_left
    apply append_ne_empty_left
    decide
  refine ⟨?_, ?_, ?_, ?_, ?_⟩ <;>
    simp [runSwitch, htab, executorOnMessage, switchAccount, jsOrDefault, hm]
  rw [← String.append_assoc, ← String.append_assoc]
  rfl

/-- Witness for C2: error message `"Access denied"`, usable tab. -/
theorem C2_switch_write_throws_witness :
    tabUsable (some { id := some 1 }) = true ∧
    (runSwitch { id := "1", name := "Work", authId := "abc123XYZ" }
        { id := some 1 } (.error "Access denied") (some "old")).controller.shownMessage =
      some ("Switch failed: Failed to set localStorage: " ++ "Access denied"
        ++ ". The site might restrict script access.") := by
  refine ⟨by decide, ?_⟩
  exact (C2_switch_write_throws { id := "1", name := "Work", authId := "abc123XYZ" }
    { id := some 1 } (some "old") "Access denied" (by decide)).2.2.2.1

/-- C5: deleting a valid index `i` removes exactly that record: the handler
completes and saves/renders `eraseIdx i`, whose length is one less, whose
entries below `i` are unchanged, and whose entries from `i` on are the
original entries shifted down by one (relative order preserved). -/
theorem C5_delete_removes_one (stored : List Account) (i : Nat)
    (h : i < stored.length) :
    (∃ outcome, deleteAccountClick stored i = some outcome ∧
      outcome.saved = some (stored.eraseIdx i) ∧
      outcome.rendered = some (stored.eraseIdx i)) ∧
    (stored.eraseIdx i).length = stored.length - 1 ∧
    (∀ j, j < i → (stored.eraseIdx i)[j]? = stored[j]?) ∧
    (∀ j, i ≤ j → (stored.eraseIdx i)[j]? = stored[j + 1]?) := by
  obtain ⟨a, hacc⟩ : ∃ a, stored[i]? = some a :=
    ⟨stored.get ⟨i, h⟩, List.getElem?_eq_getElem h⟩
  refine ⟨⟨{ saved := some (stored.eraseIdx i)
             rendered := some (stored.eraseIdx i)
             message := some ("Account \"" ++ a.name ++ "\" deleted.") },
           ?_, rfl, rfl⟩, ?_, ?_, ?_⟩
  · simp [deleteAccountClick, hacc]
  · rw [List.length_eraseIdx]
    simp [h]
  · intro j hj
    rw [List.getElem?_eraseIdx, if_pos hj]
  · intro j hj
    rw [List.getElem?_eraseIdx, if_neg (by omega)]

/-- Witness for C5: deleting index 0 of a two-element sequence. -/
theorem C5_delete_removes_one_witness :
    0 < ([{ id := "1", name := "A", authId := "x" },
          { id := "2", name := "B", authId := "y" }] : List Account).length ∧
    (([{ id := "1", name := "A", authId := "x" },
       { id := "2", name := "B", authId := "y" }] : List Account).eraseIdx 0).length =
      ([{ id := "1", name := "A", authId := "x" },
        { id := "2", name := "B", authId := "y" }] : List Account).length - 1 := by
  refine ⟨by decide, ?_⟩
  exact (C5_delete_removes_one
    [{ id := "1", name := "A", authId := "x" },
     { id := "2", name := "B", authId := "y" }] 0 (by decide)).2.1

/-- C6: an edit with nonempty trimmed inputs whose target id is absent from
the sequence saves nothing, renders nothing, shows the not-found message,
and closes the modal. -/
theorem C6_edit_not_found (id nameInput authIdInput : String)
    (stored : List Account)
    (hn : jsTrim nameInput ≠ "") (ha : jsTrim authIdInput ≠ "")
    (hid : ∀ acc ∈ stored, acc.id ≠ id) :
    saveEditClick id nameInput authIdInput stored =
      { saved := none
        rendered := none
        message := some "Error: Could not find account to update."
        modalClosed := true } := by
  have hfind : stored.findIdx? (fun acc => acc.id = id) = none := by
    rw [List.findIdx?_eq_none_iff]
    intro x hx
    simp [hid x hx]
  simp [saveEditClick, hn, ha, hfind]

/-- Witness for C6: editing id `"z"` in a one-element sequence. -/
theorem C6_edit_not_found_witness :
    (jsTrim "N" ≠ "" ∧ jsTrim "V" ≠ "" ∧
      ∀ acc ∈ ([{ id := "1", name := "A", authId := "x" }] : List Account),
        acc.id ≠ "z") ∧
    saveEditClick "z" "N" "V" [{ id := "1", name := "A", authId := "x" }] =
      { saved := none
        rendered := none
        message := some "Error: Could not find account to update."
        modalClosed := true } := by
  refine ⟨⟨by decide, by decide, by decide⟩, ?_⟩
  exact C6_edit_not_found "z" "N" "V" [{ id := "1", name := "A", authId := "x" }]
    (by decide) (by decide) (by decide)

/-- C7: a successful edit of a present id mutates exactly the targeted record
in place: at the found index the name and credential become the trimmed
inputs while the id is preserved, and every other position, the length, and
the order are unchanged; the modal closes. -/
theorem C7_edit_in_place (id nameInput authIdInput : String)
    (stored : List Account)
    (hn : jsTrim nameInput ≠ "") (ha : jsTrim authIdInput ≠ "")
    (hid : ∃ acc ∈ stored, acc.id = id) :
    ∃ i old,
      stored.findIdx? (fun acc => acc.id = id) = some i ∧
      stored[i]? = some old ∧
      old.id = id ∧
      (saveEditClick id nameInput authIdInput stored).saved =
        some (stored.set i
          { id := old.id, name := jsTrim nameInput, authId := jsTrim authIdInput }) ∧
      (saveEditClick id nameInput authIdInput stored).rendered =
        (saveEditClick id nameInput authIdInput stored).saved ∧
      (saveEditClick id nameInput authIdInput stored).modalClosed = true ∧
      (stored.set i
        { id := old.id, name := jsTrim nameInput, authId := jsTrim authIdInput }).length =
        stored.length ∧
      (stored.set i
        { id := old.id, name := jsTrim nameInput, authId := jsTrim authIdInput })[i]? =
        some { id := old.id, name := jsTrim nameInput, authId := jsTrim authIdInput } ∧
      ∀ j, j ≠ i →
        (stored.set i
          { id := old.id, name := jsTrim nameInput, authId := jsTrim authIdInput })[j]? =
          stored[j]? := by
  have hex : ∃ x ∈ stored, (fun acc => decide (acc.id = id)) x = true := by
    obtain ⟨acc, hmem, hacc⟩ := hid
    exact ⟨acc, hmem, by simp [hacc]⟩
  have hfind := List.findIdx?_eq_some_of_exists hex
  have hlt : stored.findIdx (fun acc => decide (acc.id = id)) < stored.length :=
    List.findIdx_lt_length_of_exists hex
  have hget : stored[stored.findIdx (fun acc => decide (acc.id = id))]? =
      some (stored.get ⟨stored.findIdx (fun acc => decide (acc.id = id)), hlt⟩) :=
    List.getElem?_eq_getElem hlt
  have hpid : (stored.get
      ⟨stored.findIdx (fun acc => decide (acc.id = id)), hlt⟩).id = id := by
    have hp := @List.findIdx_getElem _ (fun acc => decide (acc.id = id)) stored hlt
    exact of_decide_eq_true hp
  refine ⟨stored.findIdx (fun acc => decide (acc.id = id)),
    stored.get ⟨stored.findIdx (fun acc => decide (acc.id = id)), hlt⟩,
    hfind, hget, hpid, ?_, ?_, ?_, List.length_set stored _ _, ?_, ?_⟩
  · simp [saveEditClick, hn, ha, hfind, hget]
  · simp [saveEditClick, hn, ha, hfind, hget]
  · simp [saveEditClick, hn, ha, hfind, hget]
  · exact List.getElem?_set_self hlt
  · intro j hj
    exact List.getElem?_set_ne (Ne.symm hj)

/-- Witness for C7: editing id `"2"` in a two-element sequence. -/
theorem C7_edit_in_place_witness :
    (jsTrim " New " ≠ "" ∧ jsTrim "tok2" ≠ "" ∧
      ∃ acc ∈ ([{ id := "1", name := "A", authId := "x" },
                { id := "2", name := "B", authId := "y" }] : List Account),
        acc.id = "2") ∧
    (∃ i old,
      ([{ id := "1", name := "A", authId := "x" },
        { id := "2", name := "B", authId := "y" }] : List Account).findIdx?
          (fun acc => acc.id = "2") = some i ∧
      ([{ id := "1", name := "A", authId := "x" },
        { id := "2", name := "B", authId := "y" }] : List Account)[i]? = some old ∧
      old.id = "2") := by
  refine ⟨⟨by decide, by decide,
    ⟨{ id := "2", name := "B", authId := "y" }, by decide, by decide⟩⟩, ?_⟩
  obtain ⟨i, old, h1, h2, h3, _⟩ := C7_edit_in_place "2" " New " "tok2"
    [{ id := "1", name := "A", authId := "x" },
     { id := "2", name := "B", authId := "y" }]
    (by decide) (by decide)
    ⟨{ id := "2", name := "B", authId := "y" }, by decide, by decide⟩
  exact ⟨i, old, h1, h2, h3⟩

/-- Every popup handler either saves and renders the very same list or
touches neither copy, so one step preserves persisted = rendered. -/
lemma applyOp_preserves_consistency (s : UIState) (op : Op)
    (h : s.persisted = s.rendered) :
    (applyOp s op).persisted = (applyOp s op).rendered := by
  cases op with
  | add n a i =>
    by_cases hv : jsTrim n = "" ∨ jsTrim a = ""
    · simpa [applyOp, addAccountClick, hv, applyOutcome] using h
    · simp [applyOp, addAccountClick, hv, applyOutcome]
  | delete i =>
    cases hacc : s.persisted[i]? with
    | none => simpa [applyOp, deleteAccountClick, hacc] using h
    | some a => simp [applyOp, deleteAccountClick, hacc, applyOutcome]
  | edit id n a =>
    by_cases hv : jsTrim n = "" ∨ jsTrim a = ""
    · simpa [applyOp, saveEditClick, hv, applyOutcome] using h
    · cases hfind : s.persisted.findIdx? (fun acc => acc.id = id) with
      | none => simpa [applyOp, saveEditClick, hv, hfind, applyOutcome] using h
      | some idx =>
        cases hget : s.persisted[idx]? with
        | none => simpa [applyOp, saveEditClick, hv, hfind, hget, applyOutcome] using h
        | some old => simp [applyOp, saveEditClick, hv, hfind, hget, applyOutcome]

/-- C8: read-after-write consistency. Starting from a consistent popup state
(the initial render shows exactly the loaded sequence), after any sequence
of add/edit/delete operations the persisted sequence equals the rendered
one — in particular after each individual operation. -/
theorem C8_read_after_write (init : UIState) (ops : List Op)
    (h : init.persisted = init.rendered) :
    (runOps init ops).persisted = (runOps init ops).rendered := by
  induction ops generalizing init with
  | nil => exact h
  | cons op rest ih =>
    simp only [runOps, List.foldl] at ih ⊢
    exact ih (applyOp init op) (applyOp_preserves_consistency init op h)

/-- Witness for C8: an add followed by an edit and a delete, from the empty
consistent state. -/
theorem C8_read_after_write_witness :
    (UIState.mk [] []).persisted = (UIState.mk [] []).rendered ∧
    (runOps (UIState.mk [] [])
        [Op.add "Work" "abc123XYZ" "id1",
         Op.edit "id1" "Home" "tok2",
         Op.delete 0]).persisted =
      (runOps (UIState.mk [] [])
        [Op.add "Work" "abc123XYZ" "id1",
         Op.edit "id1" "Home" "tok2",
         Op.delete 0]).rendered := by
  refine ⟨rfl, ?_⟩
  exact C8_read_after_write (UIState.mk [] [])
    [Op.add "Work" "abc123XYZ" "id1",
     Op.edit "id1" "Home" "tok2",
     Op.delete 0] rfl

end AltManager
